import Mathlib

/-!
Shallow embedding of the habitat geometry and validation engine
(`src/utils/geometry.ts`, `src/utils/validation.ts`, `src/constants/nasa-standards.ts`,
`src/types/habitat.ts`) of the NASA Space Habitat Layout Creator.

Numeric values are embedded as exact rationals (the executable layer) and, for
the inverse-dimension solver which takes real cube roots, as real numbers.
`Math.PI` is embedded as `piQ`, the 16-significant-digit decimal value of the
double constant, on the rational layer, and as `Real.pi` on the real layer;
no proved fact depends on more than crude bounds for it.  `Math.sqrt` (reached
only by the dome branch of the surface-area function, which no theorem below
evaluates) is passed as an explicit operation `sq`.

JavaScript truthiness matters to the source's behaviour: `x || d` yields `d`
when `x` is `undefined` *or* `0`, and `x ? f(x) : d` likewise tests for
`undefined`/`0`.  These are embedded by `jsOr`, `jsTernary` and `truthy` over
`Option` fields.  Finding messages are embedded as a structured inductive
(`Msg`) carrying the interpolated data, since float formatting is
presentation; the constant `suggestion` and `complianceStandard` strings of
each push site are presentation-only and omitted from the `ValidationResult`
record.
-/

namespace Habitat

/-- `HabitatShape` enum from `src/types/habitat.ts`. -/
inductive HabitatShape
  | cylinder
  | sphere
  | torus
  | dome
  | inflatable
  | modular
  | custom
  deriving DecidableEq

/-- The `throw new Error(...)` sites of the geometry engine, one constructor per
kind of message: `invalidDimensions` for the `'<Shape> requires positive ...'`
messages of `calculateVolume`, `missingDimensions` for the `'<Shape> requires ...'`
messages of `calculateSurfaceArea` (guarded by truthiness, not positivity),
`unsupportedShape` for the `default` branches, and `notImplemented` for
`generateRecommendedDimensions`. -/
inductive GeomError
  | invalidDimensions (shape : HabitatShape)
  | missingDimensions (shape : HabitatShape)
  | unsupportedShape (shape : HabitatShape)
  | notImplemented (shape : HabitatShape)
  deriving DecidableEq

section JsHelpers

variable {α : Type} [LinearOrderedField α]

/-- JavaScript `x || d` on an optional numeric field: `undefined` and `0` are
falsy, every other number is returned unchanged. -/
def jsOr (x : Option α) (d : α) : α :=
  match x with
  | none => d
  | some v => if v = 0 then d else v

/-- JavaScript `x ? f(x) : d` on an optional numeric field. -/
def jsTernary (x : Option α) (f : α → α) (d : α) : α :=
  match x with
  | none => d
  | some v => if v = 0 then d else f v

/-- JavaScript truthiness of an optional numeric field (`!x` is `!truthy x`). -/
def truthy (x : Option α) : Bool :=
  match x with
  | none => false
  | some v => decide (v ≠ 0)

end JsHelpers

/-- `HabitatDimensions` from `src/types/habitat.ts`: the single loosely-typed
record holding a shape tag plus every shape's optional fields. -/
structure HabitatDimensions (α : Type) where
  shape : HabitatShape
  radius : Option α := none
  height : Option α := none
  sphereRadius : Option α := none
  majorRadius : Option α := none
  minorRadius : Option α := none
  domeRadius : Option α := none
  domeHeight : Option α := none
  length : Option α := none
  width : Option α := none
  depth : Option α := none
  inflatedRadius : Option α := none
  inflatedHeight : Option α := none
  deriving DecidableEq

/-- `Math.PI` on the exact rational layer: the shortest decimal that round-trips
the IEEE-754 double constant. -/
def piQ : ℚ := 3.141592653589793

namespace HabitatGeometry

section Generic

variable {α : Type} [LinearOrderedField α]

/-- `HabitatGeometry.calculateVolume` (`geometry.ts`).  Absent or zero fields
are replaced by the source's `|| default` values; the positivity guards then
reject what remains non-positive (only originally negative fields can). -/
def calculateVolume (pi : α) (dims : HabitatDimensions α) : Except GeomError α :=
  match dims.shape with
  | .cylinder =>
      let radius := jsOr dims.radius 4        -- `dimensions.radius || 4.0`
      let height := jsOr dims.height 12       -- `dimensions.height || 12.0`
      if radius ≤ 0 ∨ height ≤ 0 then .error (.invalidDimensions .cylinder)
      else .ok (pi * radius ^ 2 * height)
  | .sphere =>
      let sphereRadius := jsOr dims.sphereRadius 5
      if sphereRadius ≤ 0 then .error (.invalidDimensions .sphere)
      else .ok ((4 / 3) * pi * sphereRadius ^ 3)
  | .torus =>
      let majorRadius := jsOr dims.majorRadius 8
      let minorRadius := jsOr dims.minorRadius 3
      if majorRadius ≤ 0 ∨ minorRadius ≤ 0 then .error (.invalidDimensions .torus)
      else .ok (2 * pi ^ 2 * majorRadius * minorRadius ^ 2)
  | .dome =>
      let domeRadius := jsOr dims.domeRadius 6
      let domeHeight := jsOr dims.domeHeight 4
      if domeRadius ≤ 0 ∨ domeHeight ≤ 0 then .error (.invalidDimensions .dome)
      else
        -- Spherical cap formula: V = π * h² * (3r - h) / 3
        let h := domeHeight
        let r := domeRadius
        .ok (pi * h * h * (3 * r - h) / 3)
  | .inflatable =>
      let inflatedRadius := jsOr dims.inflatedRadius 4
      let inflatedHeight := jsOr dims.inflatedHeight 10
      if inflatedRadius ≤ 0 ∨ inflatedHeight ≤ 0 then .error (.invalidDimensions .inflatable)
      else .ok (pi * inflatedRadius ^ 2 * inflatedHeight)
  | .modular =>
      let length := jsOr dims.length 10
      let width := jsOr dims.width 8
      let modularHeight := jsOr dims.height 6
      if length ≤ 0 ∨ width ≤ 0 ∨ modularHeight ≤ 0 then .error (.invalidDimensions .modular)
      else .ok (length * width * modularHeight)
  | .custom => .error (.unsupportedShape dims.shape)

/-- `HabitatGeometry.calculateSurfaceArea` (`geometry.ts`).  The guards are the
source's truthiness checks `!dimensions.x`; after them the raw field values are
used (`getD 0` is unreachable under the guard).  `sq` embeds `Math.sqrt`. -/
def calculateSurfaceArea (pi : α) (sq : α → α) (dims : HabitatDimensions α) :
    Except GeomError α :=
  match dims.shape with
  | .cylinder =>
      if !truthy dims.radius || !truthy dims.height then
        .error (.missingDimensions .cylinder)
      else
        -- 2πr² + 2πrh (including end caps)
        let cylR := dims.radius.getD 0
        let cylH := dims.height.getD 0
        .ok (2 * pi * cylR * (cylR + cylH))
  | .sphere =>
      if !truthy dims.sphereRadius then .error (.missingDimensions .sphere)
      else .ok (4 * pi * (dims.sphereRadius.getD 0) ^ 2)
  | .torus =>
      if !truthy dims.majorRadius || !truthy dims.minorRadius then
        .error (.missingDimensions .torus)
      else .ok (4 * pi ^ 2 * dims.majorRadius.getD 0 * dims.minorRadius.getD 0)
  | .dome =>
      if !truthy dims.domeRadius || !truthy dims.domeHeight then
        .error (.missingDimensions .dome)
      else
        -- Spherical cap surface area: 2πrh + πr²base
        let domeH := dims.domeHeight.getD 0
        let domeR := dims.domeRadius.getD 0
        let baseRadius := sq (2 * domeR * domeH - domeH * domeH)
        .ok (2 * pi * domeR * domeH + pi * baseRadius * baseRadius)
  | .inflatable =>
      if !truthy dims.inflatedRadius || !truthy dims.inflatedHeight then
        .error (.missingDimensions .inflatable)
      else
        let ir := dims.inflatedRadius.getD 0
        let ih := dims.inflatedHeight.getD 0
        .ok (2 * pi * ir * (ir + ih))
  | .modular =>
      if !truthy dims.length || !truthy dims.width || !truthy dims.height then
        .error (.missingDimensions .modular)
      else
        let l := dims.length.getD 0
        let w := dims.width.getD 0
        let hm := dims.height.getD 0
        .ok (2 * (l * w + l * hm + w * hm))
  | .custom => .error (.unsupportedShape dims.shape)

/-- `HabitatGeometry.getMaxDiameter` (`geometry.ts`): the lateral extent,
clamped by `Math.min` to at most the fairing diameter. -/
def getMaxDiameter (dims : HabitatDimensions α) (fairingDiameter : α) : α :=
  match dims.shape with
  | .cylinder | .inflatable =>
      min (jsTernary dims.radius (fun r => r * 2) fairingDiameter) fairingDiameter
  | .sphere =>
      min (jsTernary dims.sphereRadius (fun r => r * 2) fairingDiameter) fairingDiameter
  | .torus =>
      min (jsTernary dims.majorRadius (fun r => r * 2) fairingDiameter) fairingDiameter
  | .dome =>
      min (jsTernary dims.domeRadius (fun r => r * 2) fairingDiameter) fairingDiameter
  | .modular =>
      min (max (jsOr dims.length 0) (jsOr dims.width 0)) fairingDiameter
  | .custom => fairingDiameter

/-- `HabitatGeometry.getEffectiveHeight` (`geometry.ts`). -/
def getEffectiveHeight (dims : HabitatDimensions α) : α :=
  match dims.shape with
  | .cylinder | .inflatable => jsOr dims.height (jsOr dims.inflatedHeight 0)
  | .sphere => jsTernary dims.sphereRadius (fun r => r * 2) 0
  | .torus => jsTernary dims.minorRadius (fun r => r * 2) 0
  | .dome => jsOr dims.domeHeight 0
  | .modular => jsOr dims.height 0
  | .custom => 0

/-- `HabitatGeometry.calculateStructuralMass` (`geometry.ts`): surface area ×
wall thickness × material density.  The source's default arguments
(`wallThickness = 0.1`, `materialDensity = 2700`) are supplied explicitly by
`checkLaunchConstraints`, its only caller here. -/
def calculateStructuralMass (pi : α) (sq : α → α) (dims : HabitatDimensions α)
    (wallThickness : α) (materialDensity : α) : Except GeomError α :=
  (calculateSurfaceArea pi sq dims).map
    (fun surfaceArea => surfaceArea * wallThickness * materialDensity)

/-- The three violation messages `checkLaunchConstraints` can push, with the
interpolated actual/limit values. -/
inductive Violation (α : Type)
  | diameterExceeds (actual limit : α)
  | heightExceeds (actual limit : α)
  | massExceeds (actual limit : α)
  deriving DecidableEq

/-- `utilizationFactors` record of `checkLaunchConstraints`. -/
structure UtilizationFactors (α : Type) where
  diameter : α
  height : α
  mass : α
  deriving DecidableEq

/-- Result record of `checkLaunchConstraints`. -/
structure LaunchCheck (α : Type) where
  fits : Bool
  violations : List (Violation α)
  utilizationFactors : UtilizationFactors α
  deriving DecidableEq

/-- `HabitatGeometry.checkLaunchConstraints` (`geometry.ts`).  A violation is
pushed per axis whose utilization ratio exceeds 1.0; `fits` is
`violations.length === 0`; utilization factors are clamped by `Math.min` to 1. -/
def checkLaunchConstraints (pi : α) (sq : α → α) (dims : HabitatDimensions α)
    (fairingDiameter fairingHeight maxMass : α) : Except GeomError (LaunchCheck α) :=
  match calculateStructuralMass pi sq dims (1 / 10) 2700 with
  | .error e => .error e
  | .ok structuralMass =>
  let maxDiameter := getMaxDiameter dims fairingDiameter
  let diameterUtilization := maxDiameter / fairingDiameter
  let v1 : List (Violation α) :=
    if diameterUtilization > 1 then [.diameterExceeds maxDiameter fairingDiameter] else []
  let habitatHeight := getEffectiveHeight dims
  let heightUtilization := habitatHeight / fairingHeight
  let v2 : List (Violation α) :=
    if heightUtilization > 1 then [.heightExceeds habitatHeight fairingHeight] else []
  let massUtilization := structuralMass / maxMass
  let v3 : List (Violation α) :=
    if massUtilization > 1 then [.massExceeds structuralMass maxMass] else []
  let violations := v1 ++ v2 ++ v3
  .ok { fits := violations.isEmpty
        violations := violations
        utilizationFactors :=
          ⟨min diameterUtilization 1, min heightUtilization 1, min massUtilization 1⟩ }

end Generic

/-- `HabitatGeometry.generateRecommendedDimensions` (`geometry.ts`), on the real
layer because it takes cube roots (`Math.pow(x, 1/3)`, embedded as `Real.rpow`). -/
noncomputable def generateRecommendedDimensions (shape : HabitatShape)
    (targetVolume : ℝ) (aspect : ℝ) : Except GeomError (HabitatDimensions ℝ) :=
  match shape with
  | .cylinder =>
      -- V = πr²h, with h = aspectRatio * 2r
      let cylinderRadius := (targetVolume / (2 * Real.pi * aspect)) ^ ((1 : ℝ) / 3)
      .ok { shape := shape
            radius := some cylinderRadius
            height := some (aspect * 2 * cylinderRadius) }
  | .sphere =>
      -- V = (4/3)πr³
      let sphereRadius := ((3 * targetVolume) / (4 * Real.pi)) ^ ((1 : ℝ) / 3)
      .ok { shape := shape, sphereRadius := some sphereRadius }
  | .modular =>
      -- Assume cubic proportions by default
      let sideLength := targetVolume ^ ((1 : ℝ) / 3)
      .ok { shape := shape
            length := some sideLength
            width := some sideLength
            height := some sideLength }
  | _ => .error (.notImplemented shape)

end HabitatGeometry

/-- `ModuleType` enum from `src/types/habitat.ts` (ten values). -/
inductive ModuleType
  | command
  | habitation
  | laboratory
  | logistics
  | exercise
  | medical
  | airlock
  | greenhouse
  | workshop
  | recreation
  deriving DecidableEq

/-- `LaunchVehicle` enum from `src/types/habitat.ts`. -/
inductive LaunchVehicle
  | falconHeavy
  | slsBlock1
  | slsBlock2
  | starship
  deriving DecidableEq

/-- One entry of `PAYLOAD_FAIRINGS` (`nasa-standards.ts`); the `volume` and
`label` fields are not read by the engine and are omitted. -/
structure Fairing where
  diameter : ℚ
  height : ℚ
  mass_limit : ℚ
  deriving DecidableEq

/-- `PAYLOAD_FAIRINGS[launchVehicle.toUpperCase()]` (`validation.ts`): for the
four enum-typed vehicles the upper-cased id always hits a table key, so the
lookup is total and the source's unknown-vehicle branch is unreachable. -/
def payloadFairing : LaunchVehicle → Fairing
  | .falconHeavy => ⟨5.2, 13.1, 26700⟩
  | .slsBlock1 => ⟨5.0, 19.1, 27000⟩
  | .slsBlock2 => ⟨8.4, 19.1, 45000⟩
  | .starship => ⟨9.0, 18.0, 150000⟩

namespace NASA_VOLUME_STANDARDS

/-- `NASA_VOLUME_STANDARDS.NHV_PER_CREW_MINIMUM` (`nasa-standards.ts`). -/
def NHV_PER_CREW_MINIMUM : ℚ := 25

/-- `NASA_VOLUME_STANDARDS.NHV_PER_CREW_OPTIMAL`. -/
def NHV_PER_CREW_OPTIMAL : ℚ := 75

/-- `NASA_VOLUME_STANDARDS.SLEEP_VOLUME_PER_CREW`. -/
def SLEEP_VOLUME_PER_CREW : ℚ := 2.5

/-- `NASA_VOLUME_STANDARDS.WORK_VOLUME_PER_CREW`. -/
def WORK_VOLUME_PER_CREW : ℚ := 8

/-- `NASA_VOLUME_STANDARDS.COMMON_AREA_PER_CREW`. -/
def COMMON_AREA_PER_CREW : ℚ := 10

end NASA_VOLUME_STANDARDS

namespace CREW_CONSTRAINTS

/-- `CREW_CONSTRAINTS.MIN_CREW` (`nasa-standards.ts`). -/
def MIN_CREW : ℚ := 2

/-- `CREW_CONSTRAINTS.MAX_CREW_LARGE`. -/
def MAX_CREW_LARGE : ℚ := 12

end CREW_CONSTRAINTS

/-- One entry of `MODULE_TYPES` (`nasa-standards.ts`); `max_occupancy` and
`description` are not read by the engine and are omitted. -/
structure ModuleTypeConfig where
  essential : Bool
  min_volume : ℚ
  deriving DecidableEq

/-- `MODULE_TYPES` (`nasa-standards.ts`), in `Object.entries` insertion order.
The table has entries for eight of the ten `ModuleType` values: there is no
`WORKSHOP` or `RECREATION` key in the source. -/
def MODULE_TYPES : List (ModuleType × ModuleTypeConfig) :=
  [(.command, ⟨true, 15⟩),
   (.habitation, ⟨true, 20⟩),
   (.laboratory, ⟨false, 25⟩),
   (.logistics, ⟨true, 10⟩),
   (.exercise, ⟨true, 15⟩),
   (.medical, ⟨true, 8⟩),
   (.airlock, ⟨true, 6⟩),
   (.greenhouse, ⟨false, 20⟩)]

/-- `MODULE_TYPES[module.type.toUpperCase()]` (`validation.ts`): `none` exactly
for `workshop` and `recreation`, whose upper-cased names miss the table. -/
def moduleTypeConfig (t : ModuleType) : Option ModuleTypeConfig :=
  (MODULE_TYPES.find? (fun e => e.1 == t)).map (fun e => e.2)

/-- Keys of `MISSION_DURATIONS` (`nasa-standards.ts`). -/
inductive DurationCategory
  | shortTerm
  | mediumTerm
  | longTerm
  | extended
  | permanent
  deriving DecidableEq

/-- One entry of `MISSION_DURATIONS`; `hi := none` embeds the source's
`Infinity` upper bound of the `PERMANENT` range. -/
structure DurationRange where
  category : DurationCategory
  lo : ℚ
  hi : Option ℚ
  deriving DecidableEq

/-- `MISSION_DURATIONS` (`nasa-standards.ts`), in `Object.entries` order. -/
def MISSION_DURATIONS : List DurationRange :=
  [⟨.shortTerm, 1, some 30⟩,
   ⟨.mediumTerm, 31, some 180⟩,
   ⟨.longTerm, 181, some 500⟩,
   ⟨.extended, 501, some 1000⟩,
   ⟨.permanent, 1001, none⟩]

/-- `duration >= range.min && duration <= range.max` for one range. -/
def inDurationRange (duration : ℚ) (r : DurationRange) : Bool :=
  decide (r.lo ≤ duration) &&
    (match r.hi with
     | none => true
     | some h => decide (duration ≤ h))

/-- `category` enum of a `ValidationResult` (`src/types/habitat.ts`). -/
inductive Category
  | volume
  | mass
  | power
  | safety
  | accessibility
  | adjacency
  deriving DecidableEq

/-- `severity` enum of a `ValidationResult`. -/
inductive Severity
  | error
  | warning
  | info
  deriving DecidableEq

/-- The `message` strings of the validator, one constructor per push site,
carrying the data interpolated into the source's template strings. -/
inductive Msg
  | nhvBelowMinimum (actual required : ℚ)
  | nhvBelowOptimal (optimal : ℚ)
  | volumePerCrewBelow (actual : ℚ)
  | insufficientSleepArea (actual required : ℚ)
  | insufficientWorkSpace (actual required : ℚ)
  | launchViolation (v : HabitatGeometry.Violation ℚ)
  | lowFairingUtilization (avg : ℚ)
  | crewBelowMinimum (crewSize : ℚ)
  | largeCrew (crewSize : ℚ)
  | needsFoodProduction
  | missingEssentialModule (t : ModuleType)
  | redundantAirlocksNeeded
  | insufficientEvacCapacity
  | adjacencyRequired (moduleName otherName : String)
  | adjacencyRestricted (moduleName otherName : String)
  | moduleVolumeBelow (moduleName : String) (volume minVolume : ℚ)
  | powerMayExceedCapacity (required : ℚ)
  | lowAirCirculation
  deriving DecidableEq

/-- `ValidationResult` (`src/types/habitat.ts`); the constant `suggestion` and
`complianceStandard` presentation strings of each push site are omitted. -/
structure ValidationResult where
  category : Category
  severity : Severity
  message : Msg
  affectedModules : Option (List String) := none
  deriving DecidableEq

/-- `MissionParameters` (`src/types/habitat.ts`), restricted to the fields the
validator reads (`destination` and `missionType` are never read by it). -/
structure MissionParameters where
  crewSize : ℚ
  duration : ℚ
  launchVehicle : LaunchVehicle
  emergencyEvacuation : Bool
  deriving DecidableEq

/-- `FunctionalModule` (`src/types/habitat.ts`), restricted to the fields the
validator reads (position, rotation, box dimensions, mass, the module's own
`essential` flag and access requirements are never read by it). -/
structure FunctionalModule where
  id : String
  type : ModuleType
  name : String
  volume : ℚ
  powerRequirement : ℚ
  crewCapacity : ℚ
  adjacencyRequirements : List String
  adjacencyRestrictions : List String
  deriving DecidableEq

/-- `Connection` (`src/types/habitat.ts`), restricted to the two module-id
endpoints, the only fields the validator reads. -/
structure Connection where
  fromModuleId : String
  toModuleId : String
  deriving DecidableEq

/-- `HabitatDesign` (`src/types/habitat.ts`), restricted to the fields the
validator reads. -/
structure HabitatDesign where
  dimensions : HabitatDimensions ℚ
  missionParameters : MissionParameters
  modules : List FunctionalModule
  connections : List Connection
  totalVolume : ℚ
  netHabitableVolume : ℚ
  deriving DecidableEq

/-- The undirected connection test of `validateModuleRequirements`
(`design.connections.some(conn => ... || ...)`). -/
def hasConnection (conns : List Connection) (a b : String) : Bool :=
  conns.any (fun conn =>
    (conn.fromModuleId == a && conn.toModuleId == b) ||
    (conn.toModuleId == a && conn.fromModuleId == b))

namespace HabitatValidator

/-- Return record of `calculateRequiredNHV`. -/
structure RequiredNHV where
  minimum : ℚ
  optimal : ℚ
  deriving DecidableEq

/-- `HabitatValidator.calculateRequiredNHV` (`validation.ts`).  The source's
sequence of reassignments (`let m = 1.0; if (d > 180) m = 1.2; if (d > 500)
m = 1.5; if (d > 1000) m = 2.0`) leaves the last satisfied condition's value,
which is the nested conditional below. -/
def calculateRequiredNHV (crewSize duration : ℚ) : RequiredNHV :=
  let basePerCrew := NASA_VOLUME_STANDARDS.NHV_PER_CREW_MINIMUM
  let optimalPerCrew := NASA_VOLUME_STANDARDS.NHV_PER_CREW_OPTIMAL
  let durationMultiplier : ℚ :=
    if duration > 1000 then 2.0
    else if duration > 500 then 1.5
    else if duration > 180 then 1.2
    else 1.0
  { minimum := crewSize * basePerCrew * durationMultiplier
    optimal := crewSize * optimalPerCrew * durationMultiplier }

/-- `HabitatValidator.getVolumeByType` (`validation.ts`): filter by module type,
then `reduce((sum, module) => sum + module.volume, 0)`. -/
def getVolumeByType (modules : List FunctionalModule) (t : ModuleType) : ℚ :=
  (modules.filter (fun m => m.type == t)).foldl (fun sum m => sum + m.volume) 0

/-- `HabitatValidator.validateFunctionalAreaVolumes` (`validation.ts`).  The
source computes `requiredCommonVolume` and `actualCommonVolume` but contains no
comparison or push for the common area: only the sleep and work checks emit. -/
def validateFunctionalAreaVolumes (design : HabitatDesign) : List ValidationResult :=
  let crewSize := design.missionParameters.crewSize
  let requiredSleepVolume := crewSize * NASA_VOLUME_STANDARDS.SLEEP_VOLUME_PER_CREW
  let requiredWorkVolume := crewSize * NASA_VOLUME_STANDARDS.WORK_VOLUME_PER_CREW
  let actualSleepVolume := getVolumeByType design.modules .habitation
  let actualWorkVolume := getVolumeByType design.modules .laboratory +
                          getVolumeByType design.modules .command
  (if actualSleepVolume < requiredSleepVolume then
    [{ category := .volume, severity := .warning
       message := .insufficientSleepArea actualSleepVolume requiredSleepVolume }]
   else []) ++
  (if actualWorkVolume < requiredWorkVolume then
    [{ category := .volume, severity := .warning
       message := .insufficientWorkSpace actualWorkVolume requiredWorkVolume }]
   else [])

/-- `HabitatValidator.validateVolumeRequirements` (`validation.ts`). -/
def validateVolumeRequirements (design : HabitatDesign) : List ValidationResult :=
  let crewSize := design.missionParameters.crewSize
  let duration := design.missionParameters.duration
  let requiredNHV := calculateRequiredNHV crewSize duration
  let actualNHV := design.netHabitableVolume
  (if actualNHV < requiredNHV.minimum then
    [{ category := .volume, severity := .error
       message := .nhvBelowMinimum actualNHV requiredNHV.minimum }]
   else if actualNHV < requiredNHV.optimal then
    [{ category := .volume, severity := .warning
       message := .nhvBelowOptimal requiredNHV.optimal }]
   else []) ++
  (let volumePerCrew := actualNHV / crewSize
   if volumePerCrew < NASA_VOLUME_STANDARDS.NHV_PER_CREW_MINIMUM then
    [{ category := .volume, severity := .error
       message := .volumePerCrewBelow volumePerCrew }]
   else []) ++
  validateFunctionalAreaVolumes design

/-- `HabitatValidator.validateLaunchConstraints` (`validation.ts`).  `Rat.sqrt`
stands in for `Math.sqrt`; it is reached only by dome-shaped designs, which no
theorem below evaluates.  A geometry `throw` propagates as the `Except` error. -/
def validateLaunchConstraints (design : HabitatDesign) :
    Except GeomError (List ValidationResult) :=
  let fairing := payloadFairing design.missionParameters.launchVehicle
  match HabitatGeometry.checkLaunchConstraints piQ Rat.sqrt design.dimensions
    fairing.diameter fairing.height fairing.mass_limit with
  | .error e => .error e
  | .ok constraints =>
  let base :=
    if !constraints.fits then
      constraints.violations.map (fun violation =>
        { category := .mass, severity := .error
          message := .launchViolation violation : ValidationResult })
    else []
  let avgUtilization := (constraints.utilizationFactors.diameter +
                         constraints.utilizationFactors.height +
                         constraints.utilizationFactors.mass) / 3
  .ok (base ++
    (if avgUtilization < 0.6 then
      [{ category := .volume, severity := .info
         message := .lowFairingUtilization avgUtilization }]
     else []))

/-- `HabitatValidator.getMissionDurationCategory` (`validation.ts`): first range
of `MISSION_DURATIONS` containing the duration, defaulting to `EXTENDED`. -/
def getMissionDurationCategory (duration : ℚ) : DurationCategory :=
  match MISSION_DURATIONS.find? (inDurationRange duration) with
  | some r => r.category
  | none => .extended

/-- `HabitatValidator.validateCrewRequirements` (`validation.ts`). -/
def validateCrewRequirements (design : HabitatDesign) : List ValidationResult :=
  let mission := design.missionParameters
  (if mission.crewSize < CREW_CONSTRAINTS.MIN_CREW then
    [{ category := .safety, severity := .error
       message := .crewBelowMinimum mission.crewSize }]
   else []) ++
  (if mission.crewSize > CREW_CONSTRAINTS.MAX_CREW_LARGE then
    [{ category := .volume, severity := .warning
       message := .largeCrew mission.crewSize }]
   else []) ++
  (let durationCategory := getMissionDurationCategory mission.duration
   if (durationCategory = .extended ∨ durationCategory = .permanent) ∧
      ¬ design.modules.any (fun m => m.type == .greenhouse) then
    [{ category := .volume, severity := .warning, message := .needsFoodProduction }]
   else [])

/-- `HabitatValidator.validateSafetyRequirements` (`validation.ts`). -/
def validateSafetyRequirements (design : HabitatDesign) : List ValidationResult :=
  let essentialModules := (MODULE_TYPES.filter (fun e => e.2.essential)).map (fun e => e.1)
  let presentModules := design.modules.map (fun m => m.type)
  let missingEssential := essentialModules.filter (fun t => ¬ presentModules.contains t)
  let airlocks := design.modules.filter (fun m => m.type == .airlock)
  (missingEssential.map (fun t =>
    { category := .safety, severity := .error
      message := .missingEssentialModule t : ValidationResult })) ++
  (if airlocks.length < 2 ∧ design.missionParameters.duration > 30 then
    [{ category := .safety, severity := .warning, message := .redundantAirlocksNeeded }]
   else []) ++
  (if design.missionParameters.emergencyEvacuation then
    (let totalEvacCapacity := airlocks.foldl (fun sum airlock => sum + airlock.crewCapacity) 0
     if totalEvacCapacity < design.missionParameters.crewSize then
      [{ category := .safety, severity := .error, message := .insufficientEvacCapacity }]
     else [])
   else [])

/-- `requiredModule?.name || requiredId` of `validateModuleRequirements`:
the name of the referenced module if it exists, else the raw id. -/
def resolveModuleName (design : HabitatDesign) (moduleId : String) : String :=
  match design.modules.find? (fun m => m.id == moduleId) with
  | some m => m.name
  | none => moduleId

/-- The adjacency-requirement loop of `validateModuleRequirements` for one
module: one warning per required id with no (undirected) connecting edge. -/
def requirementFindings (design : HabitatDesign) (m : FunctionalModule) :
    List ValidationResult :=
  m.adjacencyRequirements.filterMap (fun requiredId =>
    if hasConnection design.connections m.id requiredId then none
    else some
      { category := .adjacency, severity := .warning
        message := .adjacencyRequired m.name (resolveModuleName design requiredId)
        affectedModules := some [m.id, requiredId] })

/-- The adjacency-restriction loop of `validateModuleRequirements` for one
module: one error per restricted id that IS connected. -/
def restrictionFindings (design : HabitatDesign) (m : FunctionalModule) :
    List ValidationResult :=
  m.adjacencyRestrictions.filterMap (fun restrictedId =>
    if hasConnection design.connections m.id restrictedId then
      some
        { category := .adjacency, severity := .error
          message := .adjacencyRestricted m.name (resolveModuleName design restrictedId)
          affectedModules := some [m.id, restrictedId] }
    else none)

/-- The module-type minimum-volume check of `validateModuleRequirements` for
one module (skipped silently when `MODULE_TYPES` has no entry for the type). -/
def volumeFindings (m : FunctionalModule) : List ValidationResult :=
  match moduleTypeConfig m.type with
  | some moduleConfig =>
      if m.volume < moduleConfig.min_volume then
        [{ category := .volume, severity := .warning
           message := .moduleVolumeBelow m.name m.volume moduleConfig.min_volume
           affectedModules := some [m.id] }]
      else []
  | none => []

/-- The findings `validateModuleRequirements` pushes for one module, in push
order: adjacency requirement warnings, then adjacency restriction errors, then
the minimum-volume warning. -/
def moduleFindings (design : HabitatDesign) (m : FunctionalModule) : List ValidationResult :=
  requirementFindings design m ++ restrictionFindings design m ++ volumeFindings m

/-- `HabitatValidator.validateModuleRequirements` (`validation.ts`): the per-
module findings accumulated over `design.modules.forEach`. -/
def validateModuleRequirements (design : HabitatDesign) : List ValidationResult :=
  (design.modules.map (moduleFindings design)).flatten

/-- `HabitatValidator.validateLifeSupportRequirements` (`validation.ts`). -/
def validateLifeSupportRequirements (design : HabitatDesign) : List ValidationResult :=
  let totalPowerReq := design.modules.foldl (fun sum m => sum + m.powerRequirement) 0
  let estimatedPowerCapacity := design.totalVolume * 2
  (if totalPowerReq > estimatedPowerCapacity then
    [{ category := .power, severity := .warning
       message := .powerMayExceedCapacity totalPowerReq }]
   else []) ++
  (let crewSize := design.missionParameters.crewSize
   let requiredAirflow := crewSize * 0.5
   let airChangeRate := (requiredAirflow * 60) / design.totalVolume
   if airChangeRate < 0.5 then
    [{ category := .safety, severity := .warning, message := .lowAirCirculation }]
   else [])

/-- `HabitatValidator.validateDesign` (`validation.ts`): the six sub-checks'
findings pushed in order, with no per-sub-check exception handling.  The only
sub-check that can throw is the launch-constraints one (through the geometry
engine); in the source such a `throw` propagates out of `validateDesign` and
every already-pushed finding is discarded, which the `Except` bind mirrors. -/
def validateDesign (design : HabitatDesign) : Except GeomError (List ValidationResult) :=
  match validateLaunchConstraints design with
  | .error e => .error e
  | .ok launchResults =>
      .ok (validateVolumeRequirements design ++
           launchResults ++
           validateCrewRequirements design ++
           validateSafetyRequirements design ++
           validateModuleRequirements design ++
           validateLifeSupportRequirements design)

/-- Per-severity deduction of `calculateComplianceScore`'s `switch`. -/
def severityDeduction : Severity → ℤ
  | .error => 15
  | .warning => 5
  | .info => 1

/-- `HabitatValidator.calculateComplianceScore` (`validation.ts`):
`Math.max(0, 100 - totalDeductions)` over the reduced per-severity deductions. -/
def calculateComplianceScore (validationResults : List ValidationResult) : ℤ :=
  let totalDeductions :=
    validationResults.foldl (fun sum r => sum + severityDeduction r.severity) 0
  max 0 (100 - totalDeductions)

end HabitatValidator

/-! ### Shared helper lemmas -/

theorem piQ_pos : 0 < piQ := by norm_num [piQ]

/-- Every value an optional field can hold is strictly positive (vacuous for an
absent field). -/
def optPos (x : Option ℚ) : Prop := ∀ v, x = some v → 0 < v

/-- The field is present with a strictly negative value. -/
def negPresent (x : Option ℚ) : Prop := ∃ v, x = some v ∧ v < 0

theorem jsOr_pos {x : Option ℚ} {d : ℚ} (hx : optPos x) (hd : 0 < d) : 0 < jsOr x d := by
  cases x with
  | none => simpa [jsOr] using hd
  | some v =>
      by_cases hv : v = 0
      · simpa [jsOr, hv] using hd
      · simpa [jsOr, hv] using lt_of_le_of_ne ((hx v rfl).le) (Ne.symm hv) |>.trans_le le_rfl

theorem jsOr_nonpos_iff {x : Option ℚ} {d : ℚ} (hd : 0 < d) :
    jsOr x d ≤ 0 ↔ negPresent x := by
  cases x with
  | none => simp [jsOr, negPresent, not_le.mpr hd]
  | some v =>
      by_cases hv : v = 0
      · subst hv
        simp [jsOr, negPresent, not_le.mpr hd]
      · simp only [jsOr, if_neg hv, negPresent, Option.some.injEq]
        constructor
        · intro h
          exact ⟨v, rfl, lt_of_le_of_ne h hv⟩
        · rintro ⟨w, hw, hneg⟩
          subst hw
          exact hneg.le

theorem error_exists_iff_cond {c : Prop} [Decidable c] {k : GeomError} {v : ℚ} :
    (∃ e, (if c then Except.error k else Except.ok v) = Except.error e) ↔ c := by
  split_ifs with h <;> simp [h]

theorem jsOr_some_of_ne {α : Type} [LinearOrderedField α] {v : α} (h : v ≠ 0) (d : α) :
    jsOr (some v) d = v := by
  simp [jsOr, h]

/-! ### C1 — `calculateVolume` failure behaviour -/

/-- Some dimension field required by the active shape tag is present with a
strictly negative value (the only situation in which `calculateVolume`'s
positivity guards can fire, since absent and zero fields are replaced by the
positive `|| default` values first). -/
def hasNegativeRequiredDimension (dims : HabitatDimensions ℚ) : Prop :=
  match dims.shape with
  | .cylinder => negPresent dims.radius ∨ negPresent dims.height
  | .sphere => negPresent dims.sphereRadius
  | .torus => negPresent dims.majorRadius ∨ negPresent dims.minorRadius
  | .dome => negPresent dims.domeRadius ∨ negPresent dims.domeHeight
  | .inflatable => negPresent dims.inflatedRadius ∨ negPresent dims.inflatedHeight
  | .modular => negPresent dims.length ∨ negPresent dims.width ∨ negPresent dims.height
  | .custom => False

/-- A cylinder descriptor with `radius = 0` (the claim says this must fail). -/
def cylZeroRadius : HabitatDimensions ℚ :=
  { shape := .cylinder, radius := some 0, height := some 12 }

/-- A cylinder descriptor with a present negative radius. -/
def cylNegRadius : HabitatDimensions ℚ :=
  { shape := .cylinder, radius := some (-1), height := some 12 }

/-- C1, counterexample.  The claim says `calculateVolume` fails with
`InvalidDimensions` for a cylinder with `radius = 0` and never substitutes a
default; in the code `radius || 4.0` replaces the (falsy) zero radius by the
default `4.0` and the call succeeds with the default-radius volume π·4²·12. -/
theorem C1_counterexample :
    HabitatGeometry.calculateVolume piQ cylZeroRadius = Except.ok (piQ * 4 ^ 2 * 12) ∧
    0 < piQ * 4 ^ 2 * 12 := by
  constructor
  · norm_num [HabitatGeometry.calculateVolume, jsOr, cylZeroRadius]
  · norm_num [piQ]

/-- C1, amended.  For every shape tag other than `custom`, `calculateVolume`
fails (with the shape's `InvalidDimensions` error) precisely when some required
dimension field is present with a strictly negative value; absent or zero
fields are replaced by the positive per-shape defaults, so they never cause a
failure. -/
theorem C1_theorem :
    ∀ dims : HabitatDimensions ℚ, dims.shape ≠ .custom →
      ((∃ e, HabitatGeometry.calculateVolume piQ dims = Except.error e) ↔
        hasNegativeRequiredDimension dims) := by
  intro dims hne
  cases hs : dims.shape
  case custom => exact absurd hs hne
  case cylinder =>
    simp only [HabitatGeometry.calculateVolume, hasNegativeRequiredDimension, hs]
    rw [error_exists_iff_cond]
    rw [jsOr_nonpos_iff (by norm_num), jsOr_nonpos_iff (by norm_num)]
  case sphere =>
    simp only [HabitatGeometry.calculateVolume, hasNegativeRequiredDimension, hs]
    rw [error_exists_iff_cond]
    rw [jsOr_nonpos_iff (by norm_num)]
  case torus =>
    simp only [HabitatGeometry.calculateVolume, hasNegativeRequiredDimension, hs]
    rw [error_exists_iff_cond]
    rw [jsOr_nonpos_iff (by norm_num), jsOr_nonpos_iff (by norm_num)]
  case dome =>
    simp only [HabitatGeometry.calculateVolume, hasNegativeRequiredDimension, hs]
    rw [error_exists_iff_cond]
    rw [jsOr_nonpos_iff (by norm_num), jsOr_nonpos_iff (by norm_num)]
  case inflatable =>
    simp only [HabitatGeometry.calculateVolume, hasNegativeRequiredDimension, hs]
    rw [error_exists_iff_cond]
    rw [jsOr_nonpos_iff (by norm_num), jsOr_nonpos_iff (by norm_num)]
  case modular =>
    simp only [HabitatGeometry.calculateVolume, hasNegativeRequiredDimension, hs]
    rw [error_exists_iff_cond]
    rw [jsOr_nonpos_iff (by norm_num), jsOr_nonpos_iff (by norm_num),
      jsOr_nonpos_iff (by norm_num)]

/-- C1, witness: the amended equivalence applied to a cylinder with a present
negative radius. -/
theorem C1_witness :
    cylNegRadius.shape ≠ HabitatShape.custom ∧
    ((∃ e, HabitatGeometry.calculateVolume piQ cylNegRadius = Except.error e) ↔
      hasNegativeRequiredDimension cylNegRadius) :=
  ⟨by decide, C1_theorem cylNegRadius (by decide)⟩

/-! ### C6 — positivity of `calculateVolume` -/

/-- Every present numeric dimension field of the descriptor is strictly
positive (the claim's hypothesis). -/
def presentPositive (dims : HabitatDimensions ℚ) : Prop :=
  optPos dims.radius ∧ optPos dims.height ∧ optPos dims.sphereRadius ∧
  optPos dims.majorRadius ∧ optPos dims.minorRadius ∧ optPos dims.domeRadius ∧
  optPos dims.domeHeight ∧ optPos dims.length ∧ optPos dims.width ∧
  optPos dims.depth ∧ optPos dims.inflatedRadius ∧ optPos dims.inflatedHeight

/-- A dome with positive present fields whose cap height reaches `3r`, where
the spherical-cap formula π·h²·(3r−h)/3 gives volume `0`. -/
def domeDegenerate : HabitatDimensions ℚ :=
  { shape := .dome, domeRadius := some 1, domeHeight := some 3 }

/-- A geometrically sensible dome (`h < 3r`). -/
def domeGood : HabitatDimensions ℚ :=
  { shape := .dome, domeRadius := some 2, domeHeight := some 1 }

/-- C6, counterexample.  The claim says `calculateVolume` is strictly positive
for every dome with positive `domeRadius` and `domeHeight`; at `r = 1`,
`h = 3` all present fields are positive yet π·h²·(3r−h)/3 = 0, which is not
strictly positive (and `h > 3` would even be negative). -/
theorem C6_counterexample :
    presentPositive domeDegenerate ∧
    HabitatGeometry.calculateVolume piQ domeDegenerate = Except.ok 0 := by
  constructor
  · refine ⟨?_, ?_, ?_, ?_, ?_, ?_, ?_, ?_, ?_, ?_, ?_, ?_⟩ <;>
      (intro v hv; simp only [domeDegenerate] at hv) <;> first
        | exact Option.noConfusion hv
        | (injection hv with hveq; subst hveq; norm_num)
  · norm_num [HabitatGeometry.calculateVolume, jsOr, domeDegenerate]

/-- C6, amended.  For every shape tag other than `custom`, if all present
dimension fields are strictly positive then `calculateVolume` returns a
strictly positive number — except that for the dome tag the (resolved) cap
height must additionally satisfy `h < 3r`, the condition the counterexample
forces, for π·h²·(3r−h)/3 to be positive. -/
theorem C6_theorem :
    ∀ dims : HabitatDimensions ℚ, presentPositive dims → dims.shape ≠ .custom →
      (dims.shape = .dome → jsOr dims.domeHeight 4 < 3 * jsOr dims.domeRadius 6) →
      ∃ v, HabitatGeometry.calculateVolume piQ dims = Except.ok v ∧ 0 < v := by
  intro dims hp hne hdome
  obtain ⟨h1, h2, h3, h4, h5, h6, h7, h8, h9, _h10, h11, h12⟩ := hp
  cases hs : dims.shape
  case custom => exact absurd hs hne
  case cylinder =>
    have hr := jsOr_pos h1 (by norm_num : (0:ℚ) < 4)
    have hh := jsOr_pos h2 (by norm_num : (0:ℚ) < 12)
    have hcond : ¬(jsOr dims.radius 4 ≤ 0 ∨ jsOr dims.height 12 ≤ 0) := by
      push_neg; exact ⟨hr, hh⟩
    refine ⟨piQ * jsOr dims.radius 4 ^ 2 * jsOr dims.height 12, ?_, ?_⟩
    · simp only [HabitatGeometry.calculateVolume, hs, if_neg hcond]
    · exact mul_pos (mul_pos piQ_pos (pow_pos hr 2)) hh
  case sphere =>
    have hr := jsOr_pos h3 (by norm_num : (0:ℚ) < 5)
    have hcond : ¬(jsOr dims.sphereRadius 5 ≤ 0) := not_le.mpr hr
    refine ⟨(4 / 3) * piQ * jsOr dims.sphereRadius 5 ^ 3, ?_, ?_⟩
    · simp only [HabitatGeometry.calculateVolume, hs, if_neg hcond]
    · exact mul_pos (mul_pos (by norm_num) piQ_pos) (pow_pos hr 3)
  case torus =>
    have hR := jsOr_pos h4 (by norm_num : (0:ℚ) < 8)
    have hr := jsOr_pos h5 (by norm_num : (0:ℚ) < 3)
    have hcond : ¬(jsOr dims.majorRadius 8 ≤ 0 ∨ jsOr dims.minorRadius 3 ≤ 0) := by
      push_neg; exact ⟨hR, hr⟩
    refine ⟨2 * piQ ^ 2 * jsOr dims.majorRadius 8 * jsOr dims.minorRadius 3 ^ 2, ?_, ?_⟩
    · simp only [HabitatGeometry.calculateVolume, hs, if_neg hcond]
    · exact mul_pos (mul_pos (mul_pos (by norm_num) (pow_pos piQ_pos 2)) hR) (pow_pos hr 2)
  case dome =>
    have hr := jsOr_pos h6 (by norm_num : (0:ℚ) < 6)
    have hh := jsOr_pos h7 (by norm_num : (0:ℚ) < 4)
    have hlt := hdome hs
    have hcond : ¬(jsOr dims.domeRadius 6 ≤ 0 ∨ jsOr dims.domeHeight 4 ≤ 0) := by
      push_neg; exact ⟨hr, hh⟩
    refine ⟨piQ * jsOr dims.domeHeight 4 * jsOr dims.domeHeight 4 *
      (3 * jsOr dims.domeRadius 6 - jsOr dims.domeHeight 4) / 3, ?_, ?_⟩
    · simp only [HabitatGeometry.calculateVolume, hs, if_neg hcond]
    · exact div_pos
        (mul_pos (mul_pos (mul_pos piQ_pos hh) hh) (by linarith)) (by norm_num)
  case inflatable =>
    have hr := jsOr_pos h11 (by norm_num : (0:ℚ) < 4)
    have hh := jsOr_pos h12 (by norm_num : (0:ℚ) < 10)
    have hcond : ¬(jsOr dims.inflatedRadius 4 ≤ 0 ∨ jsOr dims.inflatedHeight 10 ≤ 0) := by
      push_neg; exact ⟨hr, hh⟩
    refine ⟨piQ * jsOr dims.inflatedRadius 4 ^ 2 * jsOr dims.inflatedHeight 10, ?_, ?_⟩
    · simp only [HabitatGeometry.calculateVolume, hs, if_neg hcond]
    · exact mul_pos (mul_pos piQ_pos (pow_pos hr 2)) hh
  case modular =>
    have hl := jsOr_pos h8 (by norm_num : (0:ℚ) < 10)
    have hw := jsOr_pos h9 (by norm_num : (0:ℚ) < 8)
    have hh := jsOr_pos h2 (by norm_num : (0:ℚ) < 6)
    have hcond :
        ¬(jsOr dims.length 10 ≤ 0 ∨ jsOr dims.width 8 ≤ 0 ∨ jsOr dims.height 6 ≤ 0) := by
      push_neg; exact ⟨hl, hw, hh⟩
    refine ⟨jsOr dims.length 10 * jsOr dims.width 8 * jsOr dims.height 6, ?_, ?_⟩
    · simp only [HabitatGeometry.calculateVolume, hs, if_neg hcond]
    · exact mul_pos (mul_pos hl hw) hh

/-- C6, witness: the amended theorem applied to a dome with `r = 2`, `h = 1`. -/
theorem C6_witness :
    presentPositive domeGood ∧ domeGood.shape ≠ HabitatShape.custom ∧
    (domeGood.shape = .dome → jsOr domeGood.domeHeight 4 < 3 * jsOr domeGood.domeRadius 6) ∧
    ∃ v, HabitatGeometry.calculateVolume piQ domeGood = Except.ok v ∧ 0 < v := by
  have hp : presentPositive domeGood := by
    refine ⟨?_, ?_, ?_, ?_, ?_, ?_, ?_, ?_, ?_, ?_, ?_, ?_⟩ <;>
      (intro v hv; simp only [domeGood] at hv) <;> first
        | exact Option.noConfusion hv
        | (injection hv with hveq; subst hveq; norm_num)
  have hd : domeGood.shape = .dome →
      jsOr domeGood.domeHeight 4 < 3 * jsOr domeGood.domeRadius 6 := by
    intro
    norm_num [domeGood, jsOr]
  exact ⟨hp, by decide, hd, C6_theorem domeGood hp (by decide) hd⟩

/-! ### C4 — `checkLaunchConstraints` violation reporting -/

/-- A cylinder whose diameter `2·radius = 6` exceeds the 5 m fairing diameter,
with height and structural mass well inside their limits. -/
def cylTooWide : HabitatDimensions ℚ :=
  { shape := .cylinder, radius := some 3, height := some 2 }

/-- C4.  The claim says a cylinder whose diameter `2·radius` exceeds the
fairing diameter yields exactly one diameter violation.  In the code
`getMaxDiameter` clamps the reported diameter with `Math.min` to the fairing
diameter, so the diameter utilization can never exceed 1 and the
diameter-violation branch of `checkLaunchConstraints` is unreachable: at
`radius = 3` against a 5 m fairing (height and mass far below their limits)
the function reports `fits = true` with no violations at all. -/
theorem C4_theorem :
    (HabitatGeometry.checkLaunchConstraints piQ Rat.sqrt cylTooWide 5 10 1000000).map
        (fun c => (c.fits, c.violations)) = Except.ok (true, []) ∧
    HabitatGeometry.getMaxDiameter cylTooWide 5 = 5 ∧
    (5 : ℚ) < 2 * 3 := by
  refine ⟨?_, ?_, by norm_num⟩
  · norm_num [HabitatGeometry.checkLaunchConstraints, HabitatGeometry.calculateStructuralMass,
      HabitatGeometry.calculateSurfaceArea, HabitatGeometry.getMaxDiameter,
      HabitatGeometry.getEffectiveHeight, jsOr, jsTernary, truthy, piQ, cylTooWide,
      Except.map, min_def]
  · norm_num [HabitatGeometry.getMaxDiameter, jsTernary, cylTooWide, min_def]

/-! ### C5 — required NHV duration multiplier -/

/-- The duration multiplier exactly as the specification words it: 1.0 for
duration ≤ 180 days, 1.2 for 180 < duration ≤ 500, 1.5 for 500 < duration
≤ 1000, and 2.0 for duration > 1000. -/
def specDurationMultiplier (duration : ℚ) : ℚ :=
  if duration ≤ 180 then 1
  else if duration ≤ 500 then 1.2
  else if duration ≤ 1000 then 1.5
  else 2

/-- C5.  `calculateRequiredNHV` returns exactly crewSize × (25 / 75 m³ per
crew) × the specification's duration multiplier, for every crew size and every
duration; in particular duration 180 uses multiplier 1.0 (4 crew → 100/300 m³)
and duration 181 uses 1.2 (4 crew → 120/360 m³). -/
theorem C5_theorem :
    (∀ crewSize duration : ℚ,
      HabitatValidator.calculateRequiredNHV crewSize duration =
        { minimum := crewSize * 25 * specDurationMultiplier duration
          optimal := crewSize * 75 * specDurationMultiplier duration }) ∧
    HabitatValidator.calculateRequiredNHV 4 180 = { minimum := 100, optimal := 300 } ∧
    HabitatValidator.calculateRequiredNHV 4 181 = { minimum := 120, optimal := 360 } := by
  have hmain : ∀ crewSize duration : ℚ,
      HabitatValidator.calculateRequiredNHV crewSize duration =
        { minimum := crewSize * 25 * specDurationMultiplier duration
          optimal := crewSize * 75 * specDurationMultiplier duration } := by
    intro c dur
    simp only [HabitatValidator.calculateRequiredNHV, specDurationMultiplier,
      NASA_VOLUME_STANDARDS.NHV_PER_CREW_MINIMUM, NASA_VOLUME_STANDARDS.NHV_PER_CREW_OPTIMAL,
      HabitatValidator.RequiredNHV.mk.injEq]
    split_ifs <;> first | (exfalso; linarith) | (constructor <;> norm_num)
  refine ⟨hmain, ?_, ?_⟩
  · rw [hmain]
    norm_num [specDurationMultiplier]
  · rw [hmain]
    norm_num [specDurationMultiplier]

/-! ### C3 — compliance score -/

/-- A concrete `error`-severity finding (for the claim's two-error example). -/
def errorFinding1 : ValidationResult :=
  { category := .safety, severity := .error, message := .insufficientEvacCapacity }

/-- A second concrete `error`-severity finding. -/
def errorFinding2 : ValidationResult :=
  { category := .volume, severity := .error, message := .nhvBelowMinimum 10 50 }

theorem foldl_deduction (results : List ValidationResult) :
    ∀ a : ℤ,
      results.foldl (fun sum r => sum + HabitatValidator.severityDeduction r.severity) a =
        a + (15 * (results.countP (fun r => r.severity == Severity.error) : ℤ) +
             5 * (results.countP (fun r => r.severity == Severity.warning) : ℤ) +
             1 * (results.countP (fun r => r.severity == Severity.info) : ℤ)) := by
  induction results with
  | nil => intro a; simp
  | cons r rest ih =>
      intro a
      rw [List.foldl_cons, ih]
      cases hsev : r.severity <;>
        simp only [List.countP_cons, hsev, HabitatValidator.severityDeduction] <;>
        push_cast <;> ring_nf <;> simp <;> ring

/-- C3.  `calculateComplianceScore` equals 100 minus 15 per error, 5 per
warning and 1 per info finding, clamped below at 0; it always lies in [0,100];
the empty list scores 100 and a two-error list scores 70. -/
theorem C3_theorem :
    (∀ results : List ValidationResult,
      HabitatValidator.calculateComplianceScore results =
        max 0 (100 - (15 * (results.countP (fun r => r.severity == Severity.error) : ℤ) +
                      5 * (results.countP (fun r => r.severity == Severity.warning) : ℤ) +
                      1 * (results.countP (fun r => r.severity == Severity.info) : ℤ)))) ∧
    (∀ results : List ValidationResult,
      0 ≤ HabitatValidator.calculateComplianceScore results ∧
      HabitatValidator.calculateComplianceScore results ≤ 100) ∧
    HabitatValidator.calculateComplianceScore [] = 100 ∧
    HabitatValidator.calculateComplianceScore [errorFinding1, errorFinding2] = 70 := by
  have hmain : ∀ results : List ValidationResult,
      HabitatValidator.calculateComplianceScore results =
        max 0 (100 - (15 * (results.countP (fun r => r.severity == Severity.error) : ℤ) +
                      5 * (results.countP (fun r => r.severity == Severity.warning) : ℤ) +
                      1 * (results.countP (fun r => r.severity == Severity.info) : ℤ))) := by
    intro results
    simp only [HabitatValidator.calculateComplianceScore]
    rw [foldl_deduction results 0]
    ring_nf
  refine ⟨hmain, ?_, ?_, ?_⟩
  · intro results
    constructor
    · rw [hmain]; exact le_max_left 0 _
    · rw [hmain]
      have he : (0 : ℤ) ≤ (results.countP (fun r => r.severity == Severity.error) : ℤ) :=
        Int.natCast_nonneg _
      have hw : (0 : ℤ) ≤ (results.countP (fun r => r.severity == Severity.warning) : ℤ) :=
        Int.natCast_nonneg _
      have hi : (0 : ℤ) ≤ (results.countP (fun r => r.severity == Severity.info) : ℤ) :=
        Int.natCast_nonneg _
      exact max_le (by norm_num) (by linarith)
  · simp [HabitatValidator.calculateComplianceScore]
  · simp [HabitatValidator.calculateComplianceScore, HabitatValidator.severityDeduction,
      errorFinding1, errorFinding2]

/-! ### C2 — exception propagation through `validateDesign` -/

/-- A design whose cylinder has no radius: the surface-area computation inside
the launch sub-check throws.  The safety sub-check alone would report six
missing essential modules. -/
def dMissingRadius : HabitatDesign :=
  { dimensions := { shape := .cylinder, radius := none, height := some 12 }
    missionParameters :=
      { crewSize := 4, duration := 180, launchVehicle := .falconHeavy
        emergencyEvacuation := false }
    modules := []
    connections := []
    totalVolume := 600
    netHabitableVolume := 600 }

/-- C2, counterexample.  The claim says a geometry `throw` inside one sub-check
only skips that sub-check and the other sub-checks' findings are still
returned; in the code `validateDesign` has no per-sub-check exception handling,
so on a cylinder with a missing radius the whole validation aborts with the
geometry error even though the safety sub-check alone had findings to report. -/
theorem C2_counterexample :
    HabitatValidator.validateDesign dMissingRadius =
      Except.error (GeomError.missingDimensions .cylinder) ∧
    HabitatValidator.validateSafetyRequirements dMissingRadius ≠ [] := by
  constructor
  · simp [HabitatValidator.validateDesign, HabitatValidator.validateLaunchConstraints,
      HabitatGeometry.checkLaunchConstraints, HabitatGeometry.calculateStructuralMass,
      HabitatGeometry.calculateSurfaceArea, truthy, dMissingRadius, payloadFairing,
      Except.map]
  · simp [HabitatValidator.validateSafetyRequirements, MODULE_TYPES, dMissingRadius,
      List.filter]

/-- C2, amended.  `validateDesign` runs its six sub-checks with no exception
handling: whenever the geometry engine's surface-area computation fails on the
design's dimensions (the only sub-check that can throw is the launch one,
through `calculateStructuralMass`), the whole validation aborts with exactly
that error and no finding of any sub-check is returned. -/
theorem C2_theorem :
    ∀ (design : HabitatDesign) (e : GeomError),
      HabitatGeometry.calculateSurfaceArea piQ Rat.sqrt design.dimensions = Except.error e →
      HabitatValidator.validateDesign design = Except.error e := by
  intro design e h
  simp only [HabitatValidator.validateDesign, HabitatValidator.validateLaunchConstraints,
    HabitatGeometry.checkLaunchConstraints, HabitatGeometry.calculateStructuralMass, h,
    Except.map]

/-- C2, witness: the amended theorem applied to the missing-radius design. -/
theorem C2_witness :
    HabitatGeometry.calculateSurfaceArea piQ Rat.sqrt dMissingRadius.dimensions =
      Except.error (GeomError.missingDimensions .cylinder) ∧
    HabitatValidator.validateDesign dMissingRadius =
      Except.error (GeomError.missingDimensions .cylinder) := by
  have h : HabitatGeometry.calculateSurfaceArea piQ Rat.sqrt dMissingRadius.dimensions =
      Except.error (GeomError.missingDimensions .cylinder) := by
    simp [HabitatGeometry.calculateSurfaceArea, truthy, dMissingRadius]
  exact ⟨h, C2_theorem dMissingRadius _ h⟩

/-! ### C7 — functional-area sub-check -/

/-- A design with two crew and no modules at all: every functional area
(sleep 5 m³, work 16 m³, common 20 m³ required) has actual volume 0. -/
def dEmptyModules : HabitatDesign :=
  { dimensions := { shape := .cylinder, radius := some 2, height := some 3 }
    missionParameters :=
      { crewSize := 2, duration := 10, launchVehicle := .falconHeavy
        emergencyEvacuation := false }
    modules := []
    connections := []
    totalVolume := 200
    netHabitableVolume := 200 }

/-- C7.  The claim says the functional-area sub-check warns for each of the
three areas below requirement, including the common area.  In the code
`validateFunctionalAreaVolumes` computes the required and actual common-area
volumes but never compares them or pushes a finding: with no modules and two
crew it emits exactly the sleep and work warnings even though the actual
common volume 0 is below the required `crewSize × COMMON_AREA_PER_CREW = 20`. -/
theorem C7_theorem :
    HabitatValidator.validateFunctionalAreaVolumes dEmptyModules =
      [{ category := .volume, severity := .warning, message := .insufficientSleepArea 0 5 },
       { category := .volume, severity := .warning, message := .insufficientWorkSpace 0 16 }] ∧
    HabitatValidator.getVolumeByType dEmptyModules.modules .recreation <
      dEmptyModules.missionParameters.crewSize * NASA_VOLUME_STANDARDS.COMMON_AREA_PER_CREW := by
  constructor
  · norm_num [HabitatValidator.validateFunctionalAreaVolumes, HabitatValidator.getVolumeByType,
      dEmptyModules, NASA_VOLUME_STANDARDS.SLEEP_VOLUME_PER_CREW,
      NASA_VOLUME_STANDARDS.WORK_VOLUME_PER_CREW, List.filter]
  · norm_num [HabitatValidator.getVolumeByType, dEmptyModules,
      NASA_VOLUME_STANDARDS.COMMON_AREA_PER_CREW, List.filter]

/-! ### C9 — per-module minimum-volume check -/

/-- A recreation module far below any plausible volume minimum. -/
def tinyRecreationModule : FunctionalModule :=
  { id := "R", type := .recreation, name := "Rec Room", volume := 0.1
    powerRequirement := 0, crewCapacity := 0
    adjacencyRequirements := [], adjacencyRestrictions := [] }

/-- A design containing only the tiny recreation module. -/
def dTinyRecreation : HabitatDesign :=
  { dimensions := { shape := .cylinder, radius := some 2, height := some 3 }
    missionParameters :=
      { crewSize := 2, duration := 10, launchVehicle := .falconHeavy
        emergencyEvacuation := false }
    modules := [tinyRecreationModule]
    connections := []
    totalVolume := 200
    netHabitableVolume := 200 }

/-- A command module below the 15 m³ minimum of its type. -/
def smallCommandModule : FunctionalModule :=
  { id := "C", type := .command, name := "Bridge", volume := 1
    powerRequirement := 0, crewCapacity := 0
    adjacencyRequirements := [], adjacencyRestrictions := [] }

/-- A design containing only the small command module. -/
def dSmallCommand : HabitatDesign :=
  { dimensions := { shape := .cylinder, radius := some 2, height := some 3 }
    missionParameters :=
      { crewSize := 2, duration := 10, launchVehicle := .falconHeavy
        emergencyEvacuation := false }
    modules := [smallCommandModule]
    connections := []
    totalVolume := 200
    netHabitableVolume := 200 }

/-- C9, counterexample.  The claim says the minimum-volume warning applies to
modules of all ten types; the `MODULE_TYPES` table has no `WORKSHOP` or
`RECREATION` entry, so the lookup misses for those two types and a 0.1 m³
recreation module produces no finding at all. -/
theorem C9_counterexample :
    moduleTypeConfig ModuleType.workshop = none ∧
    moduleTypeConfig ModuleType.recreation = none ∧
    HabitatValidator.validateModuleRequirements dTinyRecreation = [] := by
  refine ⟨by decide, by decide, ?_⟩
  simp [HabitatValidator.validateModuleRequirements, HabitatValidator.moduleFindings,
    HabitatValidator.requirementFindings, HabitatValidator.restrictionFindings,
    HabitatValidator.volumeFindings, moduleTypeConfig, MODULE_TYPES, dTinyRecreation,
    tinyRecreationModule]

/-- C9, amended.  For every module whose type has an entry in the
`MODULE_TYPES` table (the eight types command … greenhouse; `workshop` and
`recreation` have none) and whose volume is below that entry's minimum volume,
`validateModuleRequirements` emits a volume warning citing that module. -/
theorem C9_theorem :
    ∀ (design : HabitatDesign) (m : FunctionalModule) (cfg : ModuleTypeConfig),
      m ∈ design.modules → moduleTypeConfig m.type = some cfg →
      m.volume < cfg.min_volume →
      ∃ f ∈ HabitatValidator.validateModuleRequirements design,
        f.category = Category.volume ∧ f.severity = Severity.warning ∧
        f.affectedModules = some [m.id] := by
  intro design m cfg hm hcfg hvol
  refine ⟨{ category := .volume, severity := .warning
            message := .moduleVolumeBelow m.name m.volume cfg.min_volume
            affectedModules := some [m.id] }, ?_, rfl, rfl, rfl⟩
  unfold HabitatValidator.validateModuleRequirements
  rw [List.mem_flatten]
  refine ⟨HabitatValidator.moduleFindings design m, List.mem_map_of_mem _ hm, ?_⟩
  simp [HabitatValidator.moduleFindings, HabitatValidator.volumeFindings, hcfg, hvol]

/-- C9, witness: the amended theorem applied to the 1 m³ command module. -/
theorem C9_witness :
    smallCommandModule ∈ dSmallCommand.modules ∧
    moduleTypeConfig smallCommandModule.type = some ⟨true, 15⟩ ∧
    smallCommandModule.volume < (15 : ℚ) ∧
    ∃ f ∈ HabitatValidator.validateModuleRequirements dSmallCommand,
      f.category = Category.volume ∧ f.severity = Severity.warning ∧
      f.affectedModules = some [smallCommandModule.id] := by
  have hm : smallCommandModule ∈ dSmallCommand.modules := by
    simp [dSmallCommand]
  have hcfg : moduleTypeConfig smallCommandModule.type = some ⟨true, 15⟩ := by rfl
  have hvol : smallCommandModule.volume < (15 : ℚ) := by
    norm_num [smallCommandModule]
  exact ⟨hm, hcfg, hvol, C9_theorem dSmallCommand smallCommandModule ⟨true, 15⟩ hm hcfg hvol⟩

/-! ### C10 — inverse dimension solver -/

/-- C10.  On the real layer, for every positive target volume and aspect
value, `generateRecommendedDimensions` for the cylinder tag returns a radius
with height = aspect × 2 × radius whose `calculateVolume` is exactly the
target; likewise for the sphere (closed-form radius) and the modular tag
(equal length/width/height from the cube root); and for the torus, dome,
inflatable and custom tags it fails with the `NotImplemented` error. -/
theorem C10_theorem :
    (∀ targetVolume aspect : ℝ, 0 < targetVolume → 0 < aspect →
      ∃ r : ℝ,
        HabitatGeometry.generateRecommendedDimensions .cylinder targetVolume aspect =
          Except.ok { shape := .cylinder, radius := some r, height := some (aspect * 2 * r) } ∧
        HabitatGeometry.calculateVolume Real.pi
          { shape := .cylinder, radius := some r, height := some (aspect * 2 * r) } =
          Except.ok targetVolume) ∧
    (∀ targetVolume aspect : ℝ, 0 < targetVolume →
      ∃ r : ℝ,
        HabitatGeometry.generateRecommendedDimensions .sphere targetVolume aspect =
          Except.ok { shape := .sphere, sphereRadius := some r } ∧
        HabitatGeometry.calculateVolume Real.pi
          { shape := .sphere, sphereRadius := some r } = Except.ok targetVolume) ∧
    (∀ targetVolume aspect : ℝ, 0 < targetVolume →
      ∃ s : ℝ,
        HabitatGeometry.generateRecommendedDimensions .modular targetVolume aspect =
          Except.ok { shape := .modular, length := some s, width := some s, height := some s } ∧
        HabitatGeometry.calculateVolume Real.pi
          { shape := .modular, length := some s, width := some s, height := some s } =
          Except.ok targetVolume) ∧
    (∀ shape ∈ [HabitatShape.torus, .dome, .inflatable, .custom],
      ∀ targetVolume aspect : ℝ,
        HabitatGeometry.generateRecommendedDimensions shape targetVolume aspect =
          Except.error (.notImplemented shape)) := by
  refine ⟨?_, ?_, ?_, ?_⟩
  · -- cylinder
    intro V a hV ha
    have h2pa : (0:ℝ) < 2 * Real.pi * a := by positivity
    have hx : (0:ℝ) < V / (2 * Real.pi * a) := div_pos hV h2pa
    set r := (V / (2 * Real.pi * a)) ^ ((1:ℝ) / 3) with hrdef
    have hrpos : 0 < r := Real.rpow_pos_of_pos hx _
    have hhpos : 0 < a * 2 * r := by positivity
    have hjr : jsOr (some r) (4:ℝ) = r := jsOr_some_of_ne (ne_of_gt hrpos) _
    have hjh : jsOr (some (a * 2 * r)) (12:ℝ) = a * 2 * r :=
      jsOr_some_of_ne (ne_of_gt hhpos) _
    refine ⟨r, rfl, ?_⟩
    have hcond : ¬(r ≤ 0 ∨ a * 2 * r ≤ 0) := by
      push_neg; exact ⟨hrpos, hhpos⟩
    simp only [HabitatGeometry.calculateVolume, hjr, hjh]
    rw [if_neg hcond, Except.ok.injEq]
    have hr3 : r ^ (3:ℕ) = V / (2 * Real.pi * a) := by
      rw [hrdef, ← Real.rpow_natCast ((V / (2 * Real.pi * a)) ^ ((1:ℝ) / 3)) 3,
        ← Real.rpow_mul hx.le]
      norm_num
    calc Real.pi * r ^ 2 * (a * 2 * r) = 2 * Real.pi * a * r ^ (3:ℕ) := by ring
      _ = 2 * Real.pi * a * (V / (2 * Real.pi * a)) := by rw [hr3]
      _ = V := by field_simp
  · -- sphere
    intro V a hV
    have h4p : (0:ℝ) < 4 * Real.pi := by positivity
    have hx : (0:ℝ) < 3 * V / (4 * Real.pi) := by positivity
    set r := (3 * V / (4 * Real.pi)) ^ ((1:ℝ) / 3) with hrdef
    have hrpos : 0 < r := Real.rpow_pos_of_pos hx _
    have hjr : jsOr (some r) (5:ℝ) = r := jsOr_some_of_ne (ne_of_gt hrpos) _
    refine ⟨r, rfl, ?_⟩
    have hcond : ¬(r ≤ 0) := not_le.mpr hrpos
    simp only [HabitatGeometry.calculateVolume, hjr]
    rw [if_neg hcond, Except.ok.injEq]
    have hr3 : r ^ (3:ℕ) = 3 * V / (4 * Real.pi) := by
      rw [hrdef, ← Real.rpow_natCast ((3 * V / (4 * Real.pi)) ^ ((1:ℝ) / 3)) 3,
        ← Real.rpow_mul hx.le]
      norm_num
    rw [hr3]
    field_simp
    ring
  · -- modular
    intro V a hV
    set s := V ^ ((1:ℝ) / 3) with hsdef
    have hspos : 0 < s := Real.rpow_pos_of_pos hV _
    have hjl : jsOr (some s) (10:ℝ) = s := jsOr_some_of_ne (ne_of_gt hspos) _
    have hjw : jsOr (some s) (8:ℝ) = s := jsOr_some_of_ne (ne_of_gt hspos) _
    have hjh : jsOr (some s) (6:ℝ) = s := jsOr_some_of_ne (ne_of_gt hspos) _
    refine ⟨s, rfl, ?_⟩
    have hcond : ¬(s ≤ 0 ∨ s ≤ 0 ∨ s ≤ 0) := by
      push_neg; exact ⟨hspos, hspos, hspos⟩
    simp only [HabitatGeometry.calculateVolume, hjl, hjw, hjh]
    rw [if_neg hcond, Except.ok.injEq]
    have hs3 : s ^ (3:ℕ) = V := by
      rw [hsdef, ← Real.rpow_natCast (V ^ ((1:ℝ) / 3)) 3, ← Real.rpow_mul hV.le]
      norm_num
    calc s * s * s = s ^ (3:ℕ) := by ring
      _ = V := hs3
  · -- torus, dome, inflatable, custom
    intro shape hshape V a
    fin_cases hshape <;> rfl

/-! ### C8 — adjacency requirements and restrictions -/

theorem mem_requirementFindings_affected {design : HabitatDesign} {m : FunctionalModule}
    {f : ValidationResult} (hf : f ∈ HabitatValidator.requirementFindings design m) :
    ∃ rid, f.severity = Severity.warning ∧ f.affectedModules = some [m.id, rid] := by
  simp only [HabitatValidator.requirementFindings, List.mem_filterMap] at hf
  obtain ⟨rid, _, hrid⟩ := hf
  split at hrid
  · exact absurd hrid (by simp)
  · rw [Option.some.injEq] at hrid
    subst hrid
    exact ⟨rid, rfl, rfl⟩

theorem mem_restrictionFindings_affected {design : HabitatDesign} {m : FunctionalModule}
    {f : ValidationResult} (hf : f ∈ HabitatValidator.restrictionFindings design m) :
    ∃ rid, f.severity = Severity.error ∧ f.affectedModules = some [m.id, rid] := by
  simp only [HabitatValidator.restrictionFindings, List.mem_filterMap] at hf
  obtain ⟨rid, _, hrid⟩ := hf
  split at hrid
  · rw [Option.some.injEq] at hrid
    subst hrid
    exact ⟨rid, rfl, rfl⟩
  · exact absurd hrid (by simp)

theorem mem_volumeFindings_affected {m : FunctionalModule} {f : ValidationResult}
    (hf : f ∈ HabitatValidator.volumeFindings m) : f.affectedModules = some [m.id] := by
  simp only [HabitatValidator.volumeFindings] at hf
  split at hf
  · split at hf
    · rw [List.mem_singleton] at hf
      subst hf
      rfl
    · exact absurd hf (List.not_mem_nil f)
  · exact absurd hf (List.not_mem_nil f)

/-- Every finding of one module's block cites that module first, so the blocks
of modules with a different id contribute nothing to a count of findings citing
`[mid, rid]`. -/
theorem countP_moduleFindings_other (design : HabitatDesign) (m2 : FunctionalModule)
    (mid rid : String) (sev : Severity) (hne : m2.id ≠ mid) :
    (HabitatValidator.moduleFindings design m2).countP
      (fun f => f.severity == sev && f.affectedModules == some [mid, rid]) = 0 := by
  rw [List.countP_eq_zero]
  intro f hf
  simp only [HabitatValidator.moduleFindings, List.mem_append] at hf
  rcases hf with (hf | hf) | hf
  · obtain ⟨rid2, _, haff⟩ := mem_requirementFindings_affected hf
    simp [haff, hne]
  · obtain ⟨rid2, _, haff⟩ := mem_restrictionFindings_affected hf
    simp [haff, hne]
  · have haff := mem_volumeFindings_affected hf
    simp [haff]

theorem countP_flatten_zero {g : FunctionalModule → List ValidationResult}
    {p : ValidationResult → Bool} :
    ∀ L : List FunctionalModule, (∀ m2 ∈ L, (g m2).countP p = 0) →
      ((L.map g).flatten).countP p = 0 := by
  intro L
  induction L with
  | nil => intro; simp
  | cons a L ih =>
      intro h
      simp only [List.map_cons, List.flatten_cons, List.countP_append]
      rw [h a (List.mem_cons_self a L), ih (fun m2 hm2 => h m2 (List.mem_cons_of_mem a hm2))]

/-- When module ids are unique, the count over the whole flattened findings
list collapses to the count over the one module's own block. -/
theorem countP_flatten_single (g : FunctionalModule → List ValidationResult)
    (p : ValidationResult → Bool) :
    ∀ (L : List FunctionalModule) (m : FunctionalModule), m ∈ L →
      (L.map (fun mm => mm.id)).Nodup →
      (∀ m2, m2.id ≠ m.id → (g m2).countP p = 0) →
      ((L.map g).flatten).countP p = (g m).countP p := by
  intro L
  induction L with
  | nil => intro m hm; exact absurd hm (List.not_mem_nil m)
  | cons a L ih =>
      intro m hm hnd hz
      rw [List.map_cons, List.nodup_cons] at hnd
      obtain ⟨ha, hnd'⟩ := hnd
      simp only [List.map_cons, List.flatten_cons, List.countP_append]
      by_cases hid : a.id = m.id
      · have htail : ∀ m2 ∈ L, (g m2).countP p = 0 := by
          intro m2 hm2
          apply hz
          intro he
          exact ha (hid ▸ he ▸ List.mem_map_of_mem (fun mm => mm.id) hm2)
        rw [countP_flatten_zero L htail]
        rcases List.mem_cons.mp hm with rfl | hm'
        · omega
        · exact absurd (hid ▸ List.mem_map_of_mem (fun mm => mm.id) hm') ha
      · rw [hz a hid]
        rcases List.mem_cons.mp hm with rfl | hm'
        · exact absurd rfl hid
        · rw [ih m hm' hnd' hz]
          omega

theorem countP_requirementFindings (design : HabitatDesign) (m : FunctionalModule)
    (requiredId : String) :
    (HabitatValidator.requirementFindings design m).countP
      (fun f => f.severity == Severity.warning &&
                f.affectedModules == some [m.id, requiredId]) =
    if hasConnection design.connections m.id requiredId then 0
    else m.adjacencyRequirements.count requiredId := by
  unfold HabitatValidator.requirementFindings
  generalize m.adjacencyRequirements = reqs
  induction reqs with
  | nil => simp
  | cons rid reqs ih =>
      rw [List.filterMap_cons]
      by_cases hconn : hasConnection design.connections m.id rid = true
      · simp only [hconn, if_true]
        rw [ih]
        by_cases hr : rid = requiredId
        · subst hr
          simp [hconn, List.count_cons]
        · rw [List.count_cons]
          simp [hr]
      · simp only [hconn, Bool.false_eq_true, if_false]
        rw [List.countP_cons, ih]
        by_cases hr : rid = requiredId
        · subst hr
          simp only [hconn, if_false, List.count_cons]
          simp
        · simp only [List.count_cons]
          simp [hr]

theorem countP_requirementFindings_error_zero (design : HabitatDesign)
    (m : FunctionalModule) (mid rid : String) :
    (HabitatValidator.requirementFindings design m).countP
      (fun f => f.severity == Severity.error && f.affectedModules == some [mid, rid]) = 0 := by
  rw [List.countP_eq_zero]
  intro f hf
  obtain ⟨rid2, hsev, _⟩ := mem_requirementFindings_affected hf
  simp [hsev]

theorem countP_restrictionFindings (design : HabitatDesign) (m : FunctionalModule)
    (restrictedId : String) :
    (HabitatValidator.restrictionFindings design m).countP
      (fun f => f.severity == Severity.error &&
                f.affectedModules == some [m.id, restrictedId]) =
    if hasConnection design.connections m.id restrictedId then
      m.adjacencyRestrictions.count restrictedId
    else 0 := by
  unfold HabitatValidator.restrictionFindings
  generalize m.adjacencyRestrictions = restr
  induction restr with
  | nil => simp
  | cons rid restr ih =>
      rw [List.filterMap_cons]
      by_cases hconn : hasConnection design.connections m.id rid = true
      · simp only [hconn, if_true]
        rw [List.countP_cons, ih]
        by_cases hr : rid = restrictedId
        · subst hr
          simp only [hconn, if_true, List.count_cons]
          simp
        · simp only [List.count_cons]
          simp [hr]
      · simp only [hconn, Bool.false_eq_true, if_false]
        rw [ih]
        by_cases hr : rid = restrictedId
        · subst hr
          simp [hconn]
        · rw [List.count_cons]
          simp [hr]

theorem countP_restrictionFindings_warning_zero (design : HabitatDesign)
    (m : FunctionalModule) (mid rid : String) :
    (HabitatValidator.restrictionFindings design m).countP
      (fun f => f.severity == Severity.warning && f.affectedModules == some [mid, rid]) = 0 := by
  rw [List.countP_eq_zero]
  intro f hf
  obtain ⟨rid2, hsev, _⟩ := mem_restrictionFindings_affected hf
  simp [hsev]

theorem countP_volumeFindings_zero (m : FunctionalModule) (mid rid : String)
    (sev : Severity) :
    (HabitatValidator.volumeFindings m).countP
      (fun f => f.severity == sev && f.affectedModules == some [mid, rid]) = 0 := by
  rw [List.countP_eq_zero]
  intro f hf
  have haff := mem_volumeFindings_affected hf
  simp [haff]

/-- The two-module scenario of the claim: module A requires adjacency to B,
no connection present. -/
def moduleA : FunctionalModule :=
  { id := "A", type := .command, name := "Module A", volume := 20
    powerRequirement := 0, crewCapacity := 0
    adjacencyRequirements := ["B"], adjacencyRestrictions := [] }

/-- Module B of the scenario (no adjacency lists of its own). -/
def moduleB : FunctionalModule :=
  { id := "B", type := .habitation, name := "Module B", volume := 25
    powerRequirement := 0, crewCapacity := 0
    adjacencyRequirements := [], adjacencyRestrictions := [] }

/-- The scenario design with A and B unconnected. -/
def dAB : HabitatDesign :=
  { dimensions := { shape := .cylinder, radius := some 2, height := some 3 }
    missionParameters :=
      { crewSize := 2, duration := 10, launchVehicle := .falconHeavy
        emergencyEvacuation := false }
    modules := [moduleA, moduleB]
    connections := []
    totalVolume := 200
    netHabitableVolume := 200 }

/-- The same design after adding the required A–B connection. -/
def dABConnected : HabitatDesign :=
  { dAB with connections := [{ fromModuleId := "A", toModuleId := "B" }] }

/-- C8.  (1) For every design with unique module ids, every module `m` and
every id `R`: the number of warning findings citing `[m.id, R]` equals the
number of occurrences of `R` in `m`'s adjacency-requirements list when no
(undirected) connection links them, and 0 when one does.  (2) Dually, the
number of error findings citing `[m.id, S]` equals the occurrences of `S` in
`m`'s adjacency-restrictions list when a connection links them, and 0
otherwise.  (3) In the concrete A-requires-B scenario, the unconnected design
yields exactly one adjacency finding (the warning citing A and B); adding the
connection removes it, leaves no adjacency finding, and changes no
non-adjacency finding. -/
theorem C8_theorem :
    (∀ (design : HabitatDesign) (m : FunctionalModule) (requiredId : String),
      (design.modules.map (fun mm => mm.id)).Nodup → m ∈ design.modules →
      (HabitatValidator.validateModuleRequirements design).countP
          (fun f => f.severity == Severity.warning &&
                    f.affectedModules == some [m.id, requiredId]) =
        (if hasConnection design.connections m.id requiredId then 0
         else m.adjacencyRequirements.count requiredId)) ∧
    (∀ (design : HabitatDesign) (m : FunctionalModule) (restrictedId : String),
      (design.modules.map (fun mm => mm.id)).Nodup → m ∈ design.modules →
      (HabitatValidator.validateModuleRequirements design).countP
          (fun f => f.severity == Severity.error &&
                    f.affectedModules == some [m.id, restrictedId]) =
        (if hasConnection design.connections m.id restrictedId then
           m.adjacencyRestrictions.count restrictedId
         else 0)) ∧
    ((HabitatValidator.validateDesign dAB).map
        (fun l => l.filter (fun f => f.category == Category.adjacency)) =
      Except.ok [{ category := .adjacency, severity := .warning
                   message := .adjacencyRequired "Module A" "Module B"
                   affectedModules := some ["A", "B"] }] ∧
     (HabitatValidator.validateDesign dABConnected).map
        (fun l => l.filter (fun f => f.category == Category.adjacency)) = Except.ok [] ∧
     (HabitatValidator.validateDesign dAB).map
        (fun l => l.filter (fun f => !(f.category == Category.adjacency))) =
      (HabitatValidator.validateDesign dABConnected).map
        (fun l => l.filter (fun f => !(f.category == Category.adjacency)))) := by
  refine ⟨?_, ?_, ?_, ?_, ?_⟩
  · intro design m requiredId hnd hm
    unfold HabitatValidator.validateModuleRequirements
    rw [countP_flatten_single (HabitatValidator.moduleFindings design) _ design.modules m hm hnd
      (fun m2 h => countP_moduleFindings_other design m2 m.id requiredId .warning h)]
    simp only [HabitatValidator.moduleFindings, List.countP_append]
    rw [countP_requirementFindings, countP_restrictionFindings_warning_zero,
      countP_volumeFindings_zero]
    omega
  · intro design m restrictedId hnd hm
    unfold HabitatValidator.validateModuleRequirements
    rw [countP_flatten_single (HabitatValidator.moduleFindings design) _ design.modules m hm hnd
      (fun m2 h => countP_moduleFindings_other design m2 m.id restrictedId .error h)]
    simp only [HabitatValidator.moduleFindings, List.countP_append]
    rw [countP_requirementFindings_error_zero, countP_restrictionFindings,
      countP_volumeFindings_zero]
    omega
  · norm_num +decide [HabitatValidator.validateDesign, HabitatValidator.validateLaunchConstraints,
      HabitatGeometry.checkLaunchConstraints, HabitatGeometry.calculateStructuralMass,
      HabitatGeometry.calculateSurfaceArea, HabitatGeometry.getMaxDiameter,
      HabitatGeometry.getEffectiveHeight, HabitatValidator.validateVolumeRequirements,
      HabitatValidator.validateFunctionalAreaVolumes, HabitatValidator.calculateRequiredNHV,
      HabitatValidator.getVolumeByType, HabitatValidator.validateCrewRequirements,
      HabitatValidator.getMissionDurationCategory, MISSION_DURATIONS, inDurationRange,
      HabitatValidator.validateSafetyRequirements, MODULE_TYPES,
      HabitatValidator.validateModuleRequirements, HabitatValidator.moduleFindings,
      HabitatValidator.requirementFindings, HabitatValidator.restrictionFindings,
      HabitatValidator.volumeFindings, moduleTypeConfig, HabitatValidator.resolveModuleName,
      hasConnection, HabitatValidator.validateLifeSupportRequirements, payloadFairing,
      NASA_VOLUME_STANDARDS.NHV_PER_CREW_MINIMUM, NASA_VOLUME_STANDARDS.NHV_PER_CREW_OPTIMAL,
      NASA_VOLUME_STANDARDS.SLEEP_VOLUME_PER_CREW, NASA_VOLUME_STANDARDS.WORK_VOLUME_PER_CREW,
      CREW_CONSTRAINTS.MIN_CREW, CREW_CONSTRAINTS.MAX_CREW_LARGE,
      jsOr, jsTernary, truthy, piQ, dAB, moduleA, moduleB, Except.map, min_def, List.filter,
      List.filterMap_cons, List.find?_cons, List.foldl_cons, List.foldl_nil,
      List.any_cons, List.any_nil, List.contains, List.elem_cons, List.elem_nil,
      beq_eq_decide, String.reduceBEq]
  · norm_num +decide [HabitatValidator.validateDesign, HabitatValidator.validateLaunchConstraints,
      HabitatGeometry.checkLaunchConstraints, HabitatGeometry.calculateStructuralMass,
      HabitatGeometry.calculateSurfaceArea, HabitatGeometry.getMaxDiameter,
      HabitatGeometry.getEffectiveHeight, HabitatValidator.validateVolumeRequirements,
      HabitatValidator.validateFunctionalAreaVolumes, HabitatValidator.calculateRequiredNHV,
      HabitatValidator.getVolumeByType, HabitatValidator.validateCrewRequirements,
      HabitatValidator.getMissionDurationCategory, MISSION_DURATIONS, inDurationRange,
      HabitatValidator.validateSafetyRequirements, MODULE_TYPES,
      HabitatValidator.validateModuleRequirements, HabitatValidator.moduleFindings,
      HabitatValidator.requirementFindings, HabitatValidator.restrictionFindings,
      HabitatValidator.volumeFindings, moduleTypeConfig, HabitatValidator.resolveModuleName,
      hasConnection, HabitatValidator.validateLifeSupportRequirements, payloadFairing,
      NASA_VOLUME_STANDARDS.NHV_PER_CREW_MINIMUM, NASA_VOLUME_STANDARDS.NHV_PER_CREW_OPTIMAL,
      NASA_VOLUME_STANDARDS.SLEEP_VOLUME_PER_CREW, NASA_VOLUME_STANDARDS.WORK_VOLUME_PER_CREW,
      CREW_CONSTRAINTS.MIN_CREW, CREW_CONSTRAINTS.MAX_CREW_LARGE,
      jsOr, jsTernary, truthy, piQ, dABConnected, dAB, moduleA, moduleB, Except.map, min_def,
      List.filter, List.filterMap_cons, List.find?_cons, List.foldl_cons, List.foldl_nil,
      List.any_cons, List.any_nil, List.contains, List.elem_cons, List.elem_nil,
      beq_eq_decide, String.reduceBEq]
  · norm_num +decide [HabitatValidator.validateDesign, HabitatValidator.validateLaunchConstraints,
      HabitatGeometry.checkLaunchConstraints, HabitatGeometry.calculateStructuralMass,
      HabitatGeometry.calculateSurfaceArea, HabitatGeometry.getMaxDiameter,
      HabitatGeometry.getEffectiveHeight, HabitatValidator.validateVolumeRequirements,
      HabitatValidator.validateFunctionalAreaVolumes, HabitatValidator.calculateRequiredNHV,
      HabitatValidator.getVolumeByType, HabitatValidator.validateCrewRequirements,
      HabitatValidator.getMissionDurationCategory, MISSION_DURATIONS, inDurationRange,
      HabitatValidator.validateSafetyRequirements, MODULE_TYPES,
      HabitatValidator.validateModuleRequirements, HabitatValidator.moduleFindings,
      HabitatValidator.requirementFindings, HabitatValidator.restrictionFindings,
      HabitatValidator.volumeFindings, moduleTypeConfig, HabitatValidator.resolveModuleName,
      hasConnection, HabitatValidator.validateLifeSupportRequirements, payloadFairing,
      NASA_VOLUME_STANDARDS.NHV_PER_CREW_MINIMUM, NASA_VOLUME_STANDARDS.NHV_PER_CREW_OPTIMAL,
      NASA_VOLUME_STANDARDS.SLEEP_VOLUME_PER_CREW, NASA_VOLUME_STANDARDS.WORK_VOLUME_PER_CREW,
      CREW_CONSTRAINTS.MIN_CREW, CREW_CONSTRAINTS.MAX_CREW_LARGE,
      jsOr, jsTernary, truthy, piQ, dABConnected, dAB, moduleA, moduleB, Except.map, min_def,
      List.filter, List.filterMap_cons, List.find?_cons, List.foldl_cons, List.foldl_nil,
      List.any_cons, List.any_nil, List.contains, List.elem_cons, List.elem_nil,
      beq_eq_decide, String.reduceBEq]

/-- C8, witness: part (1) of the theorem applied to the concrete scenario
design, module A and required id "B". -/
theorem C8_witness :
    (HabitatValidator.validateModuleRequirements dAB).countP
        (fun f => f.severity == Severity.warning &&
                  f.affectedModules == some [moduleA.id, "B"]) =
      (if hasConnection dAB.connections moduleA.id "B" then 0
       else moduleA.adjacencyRequirements.count "B") :=
  C8_theorem.1 dAB moduleA "B" (by simp [dAB, moduleA, moduleB]) (by simp [dAB])

/-- C10, witness: the cylinder solver at target volume 1, aspect value 1. -/
theorem C10_witness :
    ∃ r : ℝ,
      HabitatGeometry.generateRecommendedDimensions .cylinder 1 1 =
        Except.ok { shape := .cylinder, radius := some r, height := some (1 * 2 * r) } ∧
      HabitatGeometry.calculateVolume Real.pi
        { shape := .cylinder, radius := some r, height := some (1 * 2 * r) } =
        Except.ok 1 :=
  C10_theorem.1 1 1 one_pos one_pos

end Habitat
